import Mathlib

/-!
Verification of `hermes.nappy.tools` (class `Content`).

The Python class is shallowly embedded: Python runtime values are the
inductive `Value` (none / text / number / byte string / list / dict),
Python exceptions are `PyError`, and each method of `Content` becomes a
function returning `Except PyError _` (raising = returning `.error`).
Dicts are association lists with Python's update semantics: assigning to
an existing key replaces its value in place, assigning a fresh key
appends it.  `bytes.decode("utf-8")` and `str.encode("utf-8")` are
modelled by an executable UTF-8 decoder/encoder over lists of byte
values.  The external `LanguageServiceClient` is a record of two total
functions mirroring the fields of the API responses that the code reads.
-/

namespace Hermes

/-- A Python runtime value, as far as `tools.py` can observe it:
`None`, a text string, a number, a byte string, a list, or a dict with
string keys (the only keys the module ever uses). Numbers are modelled
as rationals: the module only copies scores around and never computes
with them, so no floating-point rounding is observable. -/
inductive Value where
  | none : Value
  | str (s : String) : Value
  | num (q : ℚ) : Value
  | bytes (bs : List Nat) : Value
  | list (xs : List Value) : Value
  | dict (entries : List (String × Value)) : Value

/-- The Python exceptions the module can raise: `TypeError` (from the
`source`/`sentiment` setters and from subscripting non-dicts),
`KeyError` (missing dict key), `AttributeError` (calling `.encode` on a
non-string), and `UnicodeDecodeError` (decoding invalid UTF-8). -/
inductive PyError where
  | typeError : PyError
  | keyError (key : String) : PyError
  | attributeError : PyError
  | unicodeDecodeError : PyError
  deriving DecidableEq

/-- Dict lookup: first entry with the given key. -/
def alGet : List (String × Value) → String → Option Value
  | [], _ => Option.none
  | e :: rest, k => if e.1 = k then some e.2 else alGet rest k

/-- Dict update, Python style: replace the value of an existing key in
place, append a fresh key at the end. -/
def alSet : List (String × Value) → String → Value → List (String × Value)
  | [], k, v => [(k, v)]
  | e :: rest, k, v => if e.1 = k then (k, v) :: rest else e :: alSet rest k v

/-- `isinstance(v, dict)`. -/
def Value.isDict : Value → Bool
  | .dict _ => true
  | _ => false

/-- `isinstance(v, str)`. -/
def Value.isStr : Value → Bool
  | .str _ => true
  | _ => false

/-- Python subscript read `v[k]` with a string key: succeeds only on a
dict that has the key (`KeyError` when the key is missing); on every
non-dict value a string subscript raises `TypeError`. -/
def Value.getItem : Value → String → Except PyError Value
  | .dict es, k =>
    match alGet es k with
    | some v => .ok v
    | Option.none => .error (.keyError k)
  | _, _ => .error .typeError

/-- Python subscript write `v[k] = x` with a string key: in-place dict
update, `TypeError` on every non-dict value. -/
def Value.setItem : Value → String → Value → Except PyError Value
  | .dict es, k, v => .ok (.dict (alSet es k v))
  | _, _, _ => .error .typeError

/-- Is `b` a UTF-8 continuation byte (`0x80 ≤ b < 0xC0`)? -/
def isCont (b : Nat) : Bool := 0x80 ≤ b && b < 0xC0

/-- Strict UTF-8 decoding of a byte list into characters, as
`bytes.decode("utf-8")` performs it: rejects stray continuation bytes,
overlong encodings, surrogate code points and code points above
`0x10FFFF`. Returns `none` where Python raises `UnicodeDecodeError`. -/
def utf8DecodeChars : List Nat → Option (List Char)
  | [] => some []
  | b0 :: rest =>
    if b0 < 0x80 then
      (utf8DecodeChars rest).map (fun cs => Char.ofNat b0 :: cs)
    else if b0 < 0xC2 then
      Option.none
    else if b0 < 0xE0 then
      match rest with
      | b1 :: rest2 =>
        if isCont b1 then
          (utf8DecodeChars rest2).map
            (fun cs => Char.ofNat ((b0 - 0xC0) * 0x40 + (b1 - 0x80)) :: cs)
        else Option.none
      | _ => Option.none
    else if b0 < 0xF0 then
      match rest with
      | b1 :: b2 :: rest3 =>
        if isCont b1 && isCont b2 then
          let code := (b0 - 0xE0) * 0x1000 + (b1 - 0x80) * 0x40 + (b2 - 0x80)
          if 0x800 ≤ code && (code < 0xD800 || 0xDFFF < code) then
            (utf8DecodeChars rest3).map (fun cs => Char.ofNat code :: cs)
          else Option.none
        else Option.none
      | _ => Option.none
    else if b0 < 0xF5 then
      match rest with
      | b1 :: b2 :: b3 :: rest4 =>
        if isCont b1 && isCont b2 && isCont b3 then
          let code := (b0 - 0xF0) * 0x40000 + (b1 - 0x80) * 0x1000 +
            (b2 - 0x80) * 0x40 + (b3 - 0x80)
          if 0x10000 ≤ code && code < 0x110000 then
            (utf8DecodeChars rest4).map (fun cs => Char.ofNat code :: cs)
          else Option.none
        else Option.none
      | _ => Option.none
    else Option.none

/-- `bytes(bs).decode("utf-8")`: `some` of the decoded text, `none`
where Python raises `UnicodeDecodeError`. -/
def utf8Decode (bs : List Nat) : Option String :=
  (utf8DecodeChars bs).map (fun cs => String.mk cs)

/-- UTF-8 encoding of one Unicode code point. -/
def utf8EncodeChar (n : Nat) : List Nat :=
  if n < 0x80 then [n]
  else if n < 0x800 then [0xC0 + n / 0x40, 0x80 + n % 0x40]
  else if n < 0x10000 then
    [0xE0 + n / 0x1000, 0x80 + n / 0x40 % 0x40, 0x80 + n % 0x40]
  else
    [0xF0 + n / 0x40000, 0x80 + n / 0x1000 % 0x40, 0x80 + n / 0x40 % 0x40,
      0x80 + n % 0x40]

/-- `s.encode("utf-8")` on a text string. -/
def utf8Encode (s : String) : List Nat :=
  (s.data.map (fun c => utf8EncodeChar c.toNat)).flatten

/-- `v.encode("utf-8")` on an arbitrary value: only text strings have an
`encode` attribute; every other value raises `AttributeError`. -/
def pyEncodeUtf8 : Value → Except PyError (List Nat)
  | .str s => .ok (utf8Encode s)
  | _ => .error .attributeError

/-- `body.decode('utf-8') if isinstance(body, binary_type) else body`
(tools.py line 64): byte strings are decoded (raising
`UnicodeDecodeError` on invalid UTF-8), every other value is kept
unchanged. -/
def pyDecodeBody : Value → Except PyError Value
  | .bytes bs =>
    match utf8Decode bs with
    | some s => .ok (.str s)
    | Option.none => .error .unicodeDecodeError
  | v => .ok v

/-- `[v] if isinstance(v, str) else v` (tools.py lines 61, 66, 67). -/
def wrapIfStr : Value → Value
  | .str s => .list [.str s]
  | v => v

/-- The document type enum; the module only ever uses `PLAIN_TEXT`. -/
inductive DocType where
  | PLAIN_TEXT : DocType

/-- `lang.types.Document(content=..., type=...)` as the code builds it. -/
structure Document where
  content : Value
  type : DocType

/-- A score/magnitude pair as returned by the API (`document_sentiment`
or a sentence's `sentiment`). The module copies these values verbatim,
so they are kept as opaque `Value`s. -/
structure SentimentValues where
  score : Value
  magnitude : Value

/-- The `text` field of an API sentence; the code reads `.content`. -/
structure TextSpan where
  content : String

/-- One sentence of an `analyze_sentiment` response. -/
structure Sentence where
  text : TextSpan
  sentiment : SentimentValues

/-- The fields of an `analyze_sentiment` response that the code reads. -/
structure AnalyzeResponse where
  document_sentiment : SentimentValues
  sentences : List Sentence

/-- One category of a `classify_text` response. -/
structure Category where
  name : String
  confidence : Value

/-- The fields of a `classify_text` response that the code reads. -/
structure ClassifyResponse where
  categories : List Category

/-- The external `lang.LanguageServiceClient`, abstracted as a record of
the two total operations the module invokes. -/
structure Client where
  analyze_sentiment : Document → AnalyzeResponse
  classify_text : Document → ClassifyResponse

/-- The `Content` object: its two slots `_source` and `_sentiment`. -/
structure Content where
  _source : Value
  _sentiment : Value

/-- Property getter `Content.source`. -/
def Content.source (c : Content) : Value := c._source

/-- Property getter `Content.sentiment`. -/
def Content.sentiment (c : Content) : Value := c._sentiment

/-- Property setter for `source` (tools.py lines 86-102): a `TypeError`
is raised — and the slot left untouched — unless the assigned value is a
dict. Returns the state after the call plus the exception, if any. -/
def Content.setSource : Content → Value → Content × Option PyError
  | c, .dict es => (⟨.dict es, c._sentiment⟩, Option.none)
  | c, _ => (c, some .typeError)

/-- Property setter for `sentiment` (tools.py lines 118-134), same
discipline as the `source` setter. -/
def Content.setSentiment : Content → Value → Content × Option PyError
  | c, .dict es => (⟨c._source, .dict es⟩, Option.none)
  | c, _ => (c, some .typeError)

/-- `Content.__init__` (tools.py lines 50-69).  Both slots start as
`None`; the `source` setter is then called with the normalized dict
(string `author`/`tags`/`misc` wrapped into one-element lists, `body`
decoded when it is a byte string, the date stored as its string image —
`str(date)` is abstracted by passing the date as the string it prints
to), and the `sentiment` setter with an empty dict.  The only reachable
failure is a `UnicodeDecodeError` from the body decoding. -/
def mkContent (title author : Value) (date : String)
    (url body origin tags misc : Value) : Except PyError Content :=
  match pyDecodeBody body with
  | .error e => .error e
  | .ok bodyV =>
    let c0 : Content := ⟨Value.none, Value.none⟩
    let src := Value.dict [
      ("title", title),
      ("author", wrapIfStr author),
      ("date", .str date),
      ("url", url),
      ("body", bodyV),
      ("origin", origin),
      ("tags", wrapIfStr tags),
      ("misc", wrapIfStr misc)]
    match c0.setSource src with
    | (_, some e) => .error e
    | (c1, Option.none) =>
      match c1.setSentiment (Value.dict []) with
      | (_, some e) => .error e
      | (c2, Option.none) => .ok c2

/-- One entry of `sentiment['content']` (tools.py lines 165-169). -/
def sentenceEntry (s : Sentence) : Value :=
  Value.dict [("text", .str s.text.content), ("score", s.sentiment.score),
    ("magnitude", s.sentiment.magnitude)]

/-- `Content.analyse` (tools.py lines 137-172): read `source['body']`,
send it as a plain-text document, overwrite `sentiment['overall']` with
the document score/magnitude, then overwrite `sentiment['content']` with
one entry per returned sentence, in order. -/
def Content.analyse (c : Content) (client : Client) : Except PyError Content :=
  match c._source.getItem "body" with
  | .error e => .error e
  | .ok body =>
    let resp := client.analyze_sentiment ⟨body, DocType.PLAIN_TEXT⟩
    match c._sentiment.setItem "overall"
        (Value.dict [("score", resp.document_sentiment.score),
          ("magnitude", resp.document_sentiment.magnitude)]) with
    | .error e => .error e
    | .ok sent1 =>
      match sent1.setItem "content"
          (Value.list (resp.sentences.map sentenceEntry)) with
      | .error e => .error e
      | .ok sent2 => .ok { c with _sentiment := sent2 }

/-- One entry of `sentiment['overall']['categories']` (lines 195-198). -/
def catEntry (cat : Category) : Value :=
  Value.dict [("category", .str cat.name), ("confidence", cat.confidence)]

/-- The sentinel appended when classification finds no category
(tools.py lines 201-205). -/
def emptyCategory : Value :=
  Value.dict [("category", .str ""), ("confidence", .num 1)]

/-- `Content.classify` (tools.py lines 174-208): read `source['body']`,
UTF-8-encode it (`AttributeError` when it is not text), call the
classification endpoint, then overwrite
`sentiment['overall']['categories']` with one entry per category, or
with the sentinel when no category was returned. -/
def Content.classify (c : Content) (client : Client) : Except PyError Content :=
  match c._source.getItem "body" with
  | .error e => .error e
  | .ok body =>
    match pyEncodeUtf8 body with
    | .error e => .error e
    | .ok enc =>
      let cats :=
        (client.classify_text ⟨Value.bytes enc, DocType.PLAIN_TEXT⟩).categories
      match c._sentiment.getItem "overall" with
      | .error e => .error e
      | .ok overall =>
        let entries := cats.map catEntry
        let entries := if entries.length = 0 then [emptyCategory] else entries
        match overall.setItem "categories" (Value.list entries) with
        | .error e => .error e
        | .ok overall2 =>
          match c._sentiment.setItem "overall" overall2 with
          | .error e => .error e
          | .ok sent2 => .ok { c with _sentiment := sent2 }

/-- `Content.jsonify` (tools.py lines 210-217): with `automagic` run
`analyse` then `classify` first; in every case return the dict
`{"source": self.source, "sentiment": self.sentiment}`.  The result pair
carries the returned dict and the state of the object after the call. -/
def Content.jsonify (c : Content) (client : Client)
    (automagic : Bool := false) : Except PyError (Value × Content) :=
  if automagic then
    match c.analyse client with
    | .error e => .error e
    | .ok c1 =>
      match c1.classify client with
      | .error e => .error e
      | .ok c2 =>
        .ok (Value.dict [("source", c2.source), ("sentiment", c2.sentiment)], c2)
  else
    .ok (Value.dict [("source", c.source), ("sentiment", c.sentiment)], c)

/-- Modelled from the spec's words (section 8): "manually calling
`analyse` then `classify` then reading `{source, sentiment}`" — the
reference behaviour that `jsonify(client, automagic=True)` must match. -/
def specAnalyseClassifyRead (c : Content) (client : Client) :
    Except PyError (Value × Content) :=
  match c.analyse client with
  | .error e => .error e
  | .ok c1 =>
    match c1.classify client with
    | .error e => .error e
    | .ok c2 =>
      .ok (Value.dict [("source", c2.source), ("sentiment", c2.sentiment)], c2)

/-- `True` exactly on a raised `KeyError` (a "missing-key error"). -/
def isMissingKeyErr : Except PyError Content → Bool
  | .error (.keyError _) => true
  | _ => false

/-- A client returning neutral sentiment, no sentences and no
categories; used to instantiate "for every client" statements. -/
def constClient : Client :=
  ⟨fun _ => ⟨⟨Value.num 0, Value.num 0⟩, []⟩, fun _ => ⟨[]⟩⟩

/- Association-list (Python dict) lemmas shared by the claim proofs. -/

theorem alGet_alSet_self (l : List (String × Value)) (k : String) (v : Value) :
    alGet (alSet l k v) k = some v := by
  induction l with
  | nil => simp [alSet, alGet]
  | cons e rest ih =>
    by_cases h : e.1 = k
    · simp [alSet, alGet, h]
    · simp [alSet, alGet, h, ih]

theorem alGet_alSet_ne (l : List (String × Value)) (k k' : String) (v : Value)
    (h : k ≠ k') : alGet (alSet l k v) k' = alGet l k' := by
  induction l with
  | nil => simp [alSet, alGet, h]
  | cons e rest ih =>
    by_cases he : e.1 = k
    · simp [alSet, alGet, he, h]
    · by_cases he' : e.1 = k'
      · simp [alSet, alGet, he, he', Ne.symm h]
      · simp [alSet, alGet, he, he', ih]

theorem alSet_alSet_self (l : List (String × Value)) (k : String)
    (v v' : Value) : alSet (alSet l k v) k v' = alSet l k v' := by
  induction l with
  | nil => simp [alSet]
  | cons e rest ih =>
    by_cases h : e.1 = k
    · simp [alSet, h]
    · simp [alSet, h, ih]

/-- `[v] if isinstance(v, str) else v`, stated through `Value.isStr`. -/
theorem wrapIfStr_eq (v : Value) :
    wrapIfStr v = if v.isStr then Value.list [v] else v := by
  cases v <;> rfl

/-- C1: for every `Content` instance (in particular a fresh one) and
every client, `jsonify(client, automagic=True)` returns the same mapping
`{"source": source, "sentiment": sentiment}` and leaves the instance in
the same state as calling `analyse(client)`, then `classify(client)`,
then reading the two attributes; the two computations are equal as
functions of the state, errors included. -/
theorem c1_jsonify_automagic_eq_spec (c : Content) (client : Client) :
    c.jsonify client true = specAnalyseClassifyRead c client := rfl

/-- C8: for every instance, `jsonify(client, automagic=False)` (the
default) returns `{"source": source, "sentiment": sentiment}` with the
state unchanged, and its result does not depend on the client at all —
no client call is made. -/
theorem c8_jsonify_default_pure (c : Content) (client client' : Client) :
    c.jsonify client false
        = .ok (Value.dict [("source", c.source), ("sentiment", c.sentiment)], c) ∧
    c.jsonify client false = c.jsonify client' false :=
  ⟨rfl, rfl⟩

/-- C4: assigning `v` to the `source` or `sentiment` property raises a
`TypeError` exactly when `v` is not a dict, and then leaves the slot
unchanged; when `v` is a dict the assignment succeeds, the other slot is
untouched, and the getter returns `v` unchanged. -/
theorem c4_setter_guard (c : Content) (v : Value) :
    ((c.setSource v).2 = some PyError.typeError ↔ v.isDict = false) ∧
    ((c.setSentiment v).2 = some PyError.typeError ↔ v.isDict = false) ∧
    (v.isDict = false → (c.setSource v).1 = c ∧ (c.setSentiment v).1 = c) ∧
    (v.isDict = true →
      c.setSource v = (⟨v, c._sentiment⟩, Option.none) ∧
      Content.source ⟨v, c._sentiment⟩ = v ∧
      c.setSentiment v = (⟨c._source, v⟩, Option.none) ∧
      Content.sentiment ⟨c._source, v⟩ = v) := by
  cases v <;>
    simp [Content.setSource, Content.setSentiment, Value.isDict,
      Content.source, Content.sentiment]

/-- Witness for C4: a rejected non-dict assignment leaves the state
unchanged, an accepted dict assignment lands in the slot. -/
theorem c4_setter_guard_witness :
    ((Content.mk (Value.dict []) (Value.dict [])).setSource (Value.num 0)).1
        = Content.mk (Value.dict []) (Value.dict []) ∧
    ((Content.mk (Value.dict []) (Value.dict [])).setSource (Value.num 0)).2
        = some PyError.typeError ∧
    (Content.mk (Value.dict []) (Value.dict [])).setSentiment
        (Value.dict [("a", Value.num 1)])
      = (Content.mk (Value.dict []) (Value.dict [("a", Value.num 1)]),
          Option.none) := by
  have h := c4_setter_guard (Content.mk (Value.dict []) (Value.dict []))
    (Value.num 0)
  have h' := c4_setter_guard (Content.mk (Value.dict []) (Value.dict []))
    (Value.dict [("a", Value.num 1)])
  exact ⟨(h.2.2.1 rfl).1, h.1.mpr rfl, (h'.2.2.2 rfl).2.2.1⟩

/-- C2 fails as stated: the constructor only wraps values that are
*text strings*; any other scalar passes through unchanged.  Passing the
number `1` as `author` (a scalar, not a sequence) stores the bare number
`1`, not the one-element sequence `[1]`. -/
theorem c2_scalar_counterexample :
    (mkContent (.str "t") (.num 1) "2020-01-01 00:00:00" (.str "u")
        (.str "b") (.str "o") (.str "g") (.str "m")).map
        (fun c => c.source.getItem "author")
      = .ok (.ok (Value.num 1)) ∧
    Value.num 1 ≠ Value.list [Value.num 1] :=
  ⟨rfl, fun h => Value.noConfusion h⟩

/-- C2 amended: for every *text string* passed as `author`, `tags` or
`misc` the stored field is the one-element sequence containing it; every
non-string value — sequences in particular — is stored unchanged. -/
theorem c2_amended_wrap_strings (title author : Value) (date : String)
    (url origin tags misc : Value) (body : String) :
    ∃ c, mkContent title author date url (.str body) origin tags misc
        = .ok c ∧
      c.source.getItem "author"
        = .ok (if author.isStr then Value.list [author] else author) ∧
      c.source.getItem "tags"
        = .ok (if tags.isStr then Value.list [tags] else tags) ∧
      c.source.getItem "misc"
        = .ok (if misc.isStr then Value.list [misc] else misc) := by
  refine ⟨_, rfl, ?_, ?_, ?_⟩ <;>
    simp [Content.source, Value.getItem, alGet, wrapIfStr_eq]

/-- C3: a `body` passed as a byte string that is valid UTF-8 is stored
as its decoded text; a `body` passed as text is stored unchanged. -/
theorem c3_body_decode (title author : Value) (date : String)
    (url origin tags misc : Value) :
    (∀ (bs : List Nat) (s : String), utf8Decode bs = some s →
      ∃ c, mkContent title author date url (.bytes bs) origin tags misc
          = .ok c ∧
        c.source.getItem "body" = .ok (.str s)) ∧
    (∀ t : String,
      ∃ c, mkContent title author date url (.str t) origin tags misc
          = .ok c ∧
        c.source.getItem "body" = .ok (.str t)) := by
  constructor
  · intro bs s h
    refine ⟨⟨Value.dict [
        ("title", title), ("author", wrapIfStr author), ("date", .str date),
        ("url", url), ("body", .str s), ("origin", origin),
        ("tags", wrapIfStr tags), ("misc", wrapIfStr misc)],
        Value.dict []⟩, ?_, ?_⟩
    · simp [mkContent, pyDecodeBody, h, Content.setSource, Content.setSentiment]
    · simp [Content.source, Value.getItem, alGet]
  · intro t
    refine ⟨_, rfl, ?_⟩
    simp [Content.source, Value.getItem, alGet]

/-- Witness for C3: the byte string `68 C3 A9` is valid UTF-8 and is
stored as the decoded text `hé`. -/
theorem c3_body_decode_witness :
    ∃ c, mkContent (.str "t") (.str "a") "d" (.str "u")
        (.bytes [0x68, 0xC3, 0xA9]) (.str "o") (.str "g") (.str "m")
        = .ok c ∧
      c.source.getItem "body" = .ok (.str "hé") :=
  (c3_body_decode (.str "t") (.str "a") "d" (.str "u") (.str "o") (.str "g")
    (.str "m")).1 [0x68, 0xC3, 0xA9] "hé" rfl

/-- A freshly constructed instance whose `body` argument was the number
`0` (stored unchanged, since only byte strings are decoded). -/
def c5fresh : Content :=
  ⟨Value.dict [
    ("title", Value.str "t"), ("author", Value.list [Value.str "a"]),
    ("date", Value.str "d"), ("url", Value.str "u"),
    ("body", Value.num 0), ("origin", Value.str "o"),
    ("tags", Value.list [Value.str "g"]),
    ("misc", Value.list [Value.str "m"])],
  Value.dict []⟩

/-- C5 fails as stated: on a freshly constructed instance whose stored
`body` is not text (here the number `0`, accepted unchanged by the
constructor), `classify` raises `AttributeError` from
`source['body'].encode("utf-8")` — before ever reaching the
`sentiment['overall']` access — not a missing-key error, even though the
sentiment mapping indeed has no key `'overall'`. -/
theorem c5_counterexample :
    mkContent (.str "t") (.str "a") "d" (.str "u") (.num 0) (.str "o")
        (.str "g") (.str "m") = .ok c5fresh ∧
    c5fresh.sentiment.getItem "overall" = .error (PyError.keyError "overall") ∧
    c5fresh.classify constClient = .error PyError.attributeError ∧
    isMissingKeyErr (c5fresh.classify constClient) = false :=
  ⟨rfl, rfl, rfl, rfl⟩

/-- C5 amended: for every client and every instance whose sentiment
mapping has no key `'overall'` and whose `source['body']` is either
absent or text (as on any instance built from a text or byte-string
body), `classify` fails with a missing-key error — `KeyError('body')`
or `KeyError('overall')`. -/
theorem c5_amended_missing_key (c : Content) (client : Client)
    (es : List (String × Value))
    (hs : c._sentiment = Value.dict es)
    (hov : alGet es "overall" = Option.none)
    (hb : c._source.getItem "body" = .error (PyError.keyError "body") ∨
          ∃ s, c._source.getItem "body" = .ok (Value.str s)) :
    c.classify client = .error (PyError.keyError "body") ∨
    c.classify client = .error (PyError.keyError "overall") := by
  rcases hb with hb | ⟨s, hb⟩
  · left
    simp [Content.classify, hb]
  · right
    have hov' : (Value.dict es).getItem "overall"
        = .error (PyError.keyError "overall") := by
      simp [Value.getItem, hov]
    simp [Content.classify, hb, pyEncodeUtf8, hs, hov']

/-- Witness for C5 (amended): a fresh-style instance with a text body
and empty sentiment mapping hits `KeyError('overall')`. -/
theorem c5_amended_missing_key_witness :
    (Content.mk (Value.dict [("body", Value.str "x")])
        (Value.dict [])).classify constClient
        = .error (PyError.keyError "body") ∨
    (Content.mk (Value.dict [("body", Value.str "x")])
        (Value.dict [])).classify constClient
        = .error (PyError.keyError "overall") :=
  c5_amended_missing_key _ constClient [] rfl rfl (Or.inr ⟨"x", rfl⟩)

/-- The fixed `analyze_sentiment` response of claim C6. -/
def c6resp : AnalyzeResponse :=
  ⟨⟨Value.num 0.5, Value.num 0.8⟩,
    [⟨⟨"Good."⟩, ⟨Value.num 0.9, Value.num 0.9⟩⟩]⟩

/-- A client whose `analyze_sentiment` always returns `c6resp` and
whose `classify_text` returns zero categories. -/
def c6client : Client := ⟨fun _ => c6resp, fun _ => ⟨[]⟩⟩

/-- The sentiment mapping claim C6 predicts after `analyse`. -/
def c6expected : Value :=
  Value.dict [
    ("overall", Value.dict [("score", Value.num 0.5),
      ("magnitude", Value.num 0.8)]),
    ("content", Value.list [Value.dict [("text", Value.str "Good."),
      ("score", Value.num 0.9), ("magnitude", Value.num 0.9)]])]

/-- C6 fails as stated for *every* instance: `analyse` only overwrites
the keys `'overall'` and `'content'`, so on an instance whose sentiment
mapping already holds another key (here `'foo'`, put there through the
`sentiment` setter) that key survives, and the resulting mapping is not
equal to the claimed `{overall, content}` mapping: the two sides differ
at `'foo'`. -/
theorem c6_counterexample :
    ((Content.mk (Value.dict [("body", Value.str "x")])
        (Value.dict [("foo", Value.num 0)])).analyse c6client).map
        (fun c => c._sentiment.getItem "foo")
      = .ok (.ok (Value.num 0)) ∧
    c6expected.getItem "foo" = .error (PyError.keyError "foo") :=
  ⟨rfl, rfl⟩

/-- C6 amended: for every instance whose sentiment mapping is empty (as
on any freshly constructed instance) and whose source has a `body`, and
every client answering the claim's fixed `analyze_sentiment` response
for that body, `analyse` succeeds, leaves `source` unchanged and sets
the sentiment mapping to exactly
`{overall: {score: 0.5, magnitude: 0.8},
  content: [{text: "Good.", score: 0.9, magnitude: 0.9}]}`,
one content entry per returned sentence, in order. -/
theorem c6_amended_analyse_result (c : Content) (client : Client) (b : Value)
    (hb : c._source.getItem "body" = .ok b)
    (hs : c._sentiment = Value.dict [])
    (hcl : client.analyze_sentiment ⟨b, DocType.PLAIN_TEXT⟩ = c6resp) :
    c.analyse client = .ok ⟨c._source, c6expected⟩ := by
  simp [Content.analyse, hb, hcl, hs, Value.setItem, alSet, c6resp,
    c6expected, sentenceEntry]

/-- Witness for C6 (amended): a fresh-style instance with body
`"Good."` under `c6client`. -/
theorem c6_amended_analyse_result_witness :
    (Content.mk (Value.dict [("body", Value.str "Good.")])
        (Value.dict [])).analyse c6client
      = .ok ⟨Value.dict [("body", Value.str "Good.")], c6expected⟩ :=
  c6_amended_analyse_result _ c6client (Value.str "Good.") rfl rfl rfl

/-- C7 fails as stated: the claim quantifies over every instance whose
sentiment mapping contains the key `'overall'`; on this instance it does
(with the non-dict value `5`, put there through the `sentiment` setter),
yet `classify` aborts with a `TypeError` from the item assignment
`sentiment['overall']['categories'] = []`, so no post-state with a
non-empty `categories` sequence exists. -/
theorem c7_counterexample :
    alGet [("overall", Value.num 5)] "overall" = some (Value.num 5) ∧
    (Content.mk (Value.dict [("body", Value.str "x")])
        (Value.dict [("overall", Value.num 5)])).classify constClient
      = .error PyError.typeError :=
  ⟨rfl, rfl⟩

/-- C7 amended: for every client and every instance whose
`source['body']` is text and whose sentiment mapping maps `'overall'`
to a mapping, `classify` succeeds and afterwards
`sentiment['overall']['categories']` is a non-empty sequence: exactly
`[{category: "", confidence: 1}]` when the client returns zero
categories, and otherwise one `{category, confidence}` entry per
returned category, in order. -/
theorem c7_amended_categories_nonempty (c : Content) (client : Client)
    (bs : String) (es os : List (String × Value))
    (hb : c._source.getItem "body" = .ok (Value.str bs))
    (hs : c._sentiment = Value.dict es)
    (hov : alGet es "overall" = some (Value.dict os)) :
    ∃ c', c.classify client = .ok c' ∧
      ∃ l, (c'._sentiment.getItem "overall" >>= fun o => o.getItem "categories")
          = .ok (Value.list l) ∧
        l ≠ [] ∧
        ((client.classify_text ⟨Value.bytes (utf8Encode bs),
            DocType.PLAIN_TEXT⟩).categories = [] → l = [emptyCategory]) ∧
        ((client.classify_text ⟨Value.bytes (utf8Encode bs),
            DocType.PLAIN_TEXT⟩).categories ≠ [] →
          l = (client.classify_text ⟨Value.bytes (utf8Encode bs),
            DocType.PLAIN_TEXT⟩).categories.map catEntry) := by
  have hset : ∀ newov, (Value.dict es).setItem "overall" newov
      = .ok (Value.dict (alSet es "overall" newov)) := fun _ => rfl
  refine ⟨⟨c._source, Value.dict (alSet es "overall" (Value.dict (alSet os
      "categories" (Value.list (if ((client.classify_text ⟨Value.bytes
      (utf8Encode bs), DocType.PLAIN_TEXT⟩).categories.map catEntry).length = 0
      then [emptyCategory]
      else (client.classify_text ⟨Value.bytes (utf8Encode bs),
        DocType.PLAIN_TEXT⟩).categories.map catEntry)))))⟩, ?_, ?_⟩
  · have hov' : (Value.dict es).getItem "overall" = .ok (Value.dict os) := by
      simp [Value.getItem, hov]
    simp [Content.classify, hb, pyEncodeUtf8, hs, hov', Value.setItem]
  · refine ⟨(if ((client.classify_text ⟨Value.bytes (utf8Encode bs),
        DocType.PLAIN_TEXT⟩).categories.map catEntry).length = 0
        then [emptyCategory]
        else (client.classify_text ⟨Value.bytes (utf8Encode bs),
          DocType.PLAIN_TEXT⟩).categories.map catEntry), ?_, ?_, ?_, ?_⟩
    · simp [Value.getItem, alGet_alSet_self, Bind.bind, Except.bind]
    · by_cases hc : (client.classify_text ⟨Value.bytes (utf8Encode bs),
          DocType.PLAIN_TEXT⟩).categories = []
      · simp [hc, emptyCategory]
      · simp [hc]
    · intro hc
      simp [hc]
    · intro hc
      simp [hc]

/-- Witness for C7 (amended): an instance whose `overall` mapping is
empty, classified by a client that returns zero categories, ends with
exactly the sentinel category entry. -/
theorem c7_amended_categories_nonempty_witness :
    ∃ c', (Content.mk (Value.dict [("body", Value.str "x")])
        (Value.dict [("overall", Value.dict [])])).classify constClient
        = .ok c' ∧
      ∃ l, (c'._sentiment.getItem "overall" >>= fun o => o.getItem "categories")
          = .ok (Value.list l) ∧
        l ≠ [] ∧
        ((constClient.classify_text ⟨Value.bytes (utf8Encode "x"),
            DocType.PLAIN_TEXT⟩).categories = [] → l = [emptyCategory]) ∧
        ((constClient.classify_text ⟨Value.bytes (utf8Encode "x"),
            DocType.PLAIN_TEXT⟩).categories ≠ [] →
          l = (constClient.classify_text ⟨Value.bytes (utf8Encode "x"),
            DocType.PLAIN_TEXT⟩).categories.map catEntry) :=
  c7_amended_categories_nonempty _ constClient "x"
    [("overall", Value.dict [])] [] rfl rfl rfl

/-- C9: `analyse` replaces `sentiment['overall']` wholesale with a
mapping holding only `score` and `magnitude` — so a `categories` entry
put there by an earlier `classify` is discarded (looking it up under the
new `overall` raises `KeyError`) — and leaves `source` unchanged.  The
hypotheses (sentiment is a dict, `body` is present) hold on every
instance on which `classify` has already run successfully. -/
theorem c9_analyse_overwrites_overall (c : Content) (client : Client)
    (b : Value) (es : List (String × Value))
    (hb : c._source.getItem "body" = .ok b)
    (hs : c._sentiment = Value.dict es) :
    ∃ c', c.analyse client = .ok c' ∧
      c'._source = c._source ∧
      c'._sentiment.getItem "overall"
        = .ok (Value.dict [
            ("score", (client.analyze_sentiment
              ⟨b, DocType.PLAIN_TEXT⟩).document_sentiment.score),
            ("magnitude", (client.analyze_sentiment
              ⟨b, DocType.PLAIN_TEXT⟩).document_sentiment.magnitude)]) ∧
      (c'._sentiment.getItem "overall" >>= fun o => o.getItem "categories")
        = .error (PyError.keyError "categories") := by
  refine ⟨⟨c._source, Value.dict (alSet (alSet es "overall"
      (Value.dict [
        ("score", (client.analyze_sentiment
          ⟨b, DocType.PLAIN_TEXT⟩).document_sentiment.score),
        ("magnitude", (client.analyze_sentiment
          ⟨b, DocType.PLAIN_TEXT⟩).document_sentiment.magnitude)]))
      "content" (Value.list ((client.analyze_sentiment
        ⟨b, DocType.PLAIN_TEXT⟩).sentences.map sentenceEntry)))⟩,
    ?_, rfl, ?_, ?_⟩
  · simp [Content.analyse, hb, hs, Value.setItem]
  · simp [Value.getItem, alGet_alSet_ne _ "content" "overall" _ (by decide),
      alGet_alSet_self]
  · simp [Value.getItem, alGet_alSet_ne _ "content" "overall" _ (by decide),
      alGet_alSet_self, Bind.bind, Except.bind, alGet]

/-- Witness for C9: an instance whose `overall` already carries a
`categories` entry (as after `classify`) loses it when `analyse` runs
again. -/
theorem c9_analyse_overwrites_overall_witness :
    ∃ c', (Content.mk (Value.dict [("body", Value.str "x")])
        (Value.dict [("overall", Value.dict [("score", Value.num 0.1),
            ("magnitude", Value.num 0.2),
            ("categories", Value.list [emptyCategory])]),
          ("content", Value.list [])])).analyse constClient = .ok c' ∧
      c'._source = Value.dict [("body", Value.str "x")] ∧
      c'._sentiment.getItem "overall"
        = .ok (Value.dict [
            ("score", (constClient.analyze_sentiment
              ⟨Value.str "x", DocType.PLAIN_TEXT⟩).document_sentiment.score),
            ("magnitude", (constClient.analyze_sentiment
              ⟨Value.str "x", DocType.PLAIN_TEXT⟩).document_sentiment.magnitude)]) ∧
      (c'._sentiment.getItem "overall" >>= fun o => o.getItem "categories")
        = .error (PyError.keyError "categories") :=
  c9_analyse_overwrites_overall _ constClient (Value.str "x")
    [("overall", Value.dict [("score", Value.num 0.1),
        ("magnitude", Value.num 0.2),
        ("categories", Value.list [emptyCategory])]),
      ("content", Value.list [])] rfl rfl

/-- The categories list `classify` stores for a given client and text
body: one entry per returned category, or the sentinel when none.  It
does not depend on the state of the instance. -/
def classifyEntries (client : Client) (bs : String) : List Value :=
  let entries := (client.classify_text ⟨Value.bytes (utf8Encode bs),
    DocType.PLAIN_TEXT⟩).categories.map catEntry
  if entries.length = 0 then [emptyCategory] else entries

/-- C10: with a text body and a mapping at `'overall'`, `classify`
succeeds and mutates only the `'categories'` key of
`sentiment['overall']`: `source`, `sentiment['content']`, and
`overall`'s `'score'` and `'magnitude'` entries are unchanged; the new
`categories` value `classifyEntries client bs` depends only on the
client and the body — not on any previously stored categories — and
running `classify` a second time leaves the state fixed (the sequence is
overwritten, not accumulated onto). -/
theorem c10_classify_frame (c : Content) (client : Client)
    (bs : String) (es os : List (String × Value))
    (hb : c._source.getItem "body" = .ok (Value.str bs))
    (hs : c._sentiment = Value.dict es)
    (hov : alGet es "overall" = some (Value.dict os)) :
    ∃ c' os', c.classify client = .ok c' ∧
      c'._source = c._source ∧
      c'._sentiment.getItem "content" = (Value.dict es).getItem "content" ∧
      c'._sentiment.getItem "overall" = .ok (Value.dict os') ∧
      alGet os' "score" = alGet os "score" ∧
      alGet os' "magnitude" = alGet os "magnitude" ∧
      alGet os' "categories" = some (Value.list (classifyEntries client bs)) ∧
      c'.classify client = .ok c' := by
  have hov' : (Value.dict es).getItem "overall" = .ok (Value.dict os) := by
    simp [Value.getItem, hov]
  refine ⟨⟨c._source, Value.dict (alSet es "overall" (Value.dict (alSet os
      "categories" (Value.list (classifyEntries client bs)))))⟩,
    alSet os "categories" (Value.list (classifyEntries client bs)),
    ?_, rfl, ?_, ?_, ?_, ?_, ?_, ?_⟩
  · simp [Content.classify, hb, pyEncodeUtf8, hs, hov', Value.setItem,
      classifyEntries]
  · simp [Value.getItem, alGet_alSet_ne _ "overall" "content" _ (by decide)]
  · simp [Value.getItem, alGet_alSet_self]
  · exact alGet_alSet_ne _ "categories" "score" _ (by decide)
  · exact alGet_alSet_ne _ "categories" "magnitude" _ (by decide)
  · exact alGet_alSet_self _ _ _
  · have hov2 : ∀ V : Value, (Value.dict (alSet es "overall"
        (Value.dict (alSet os "categories" V)))).getItem "overall"
        = .ok (Value.dict (alSet os "categories" V)) := by
      intro V
      simp [Value.getItem, alGet_alSet_self]
    simp [Content.classify, hb, pyEncodeUtf8, hov2, Value.setItem,
      alSet_alSet_self, classifyEntries]

/-- A client classifying everything into one category `news`. -/
def c10client : Client :=
  ⟨fun _ => ⟨⟨Value.num 0, Value.num 0⟩, []⟩,
    fun _ => ⟨[⟨"news", Value.num 0.75⟩]⟩⟩

/-- Witness for C10: an instance that already carries a sentinel
`categories` entry gets it overwritten with the client's single
category; score, magnitude and content survive; a repeated `classify`
changes nothing. -/
theorem c10_classify_frame_witness :
    ∃ c' os', (Content.mk (Value.dict [("body", Value.str "x")])
        (Value.dict [("overall", Value.dict [("score", Value.num 0.1),
            ("magnitude", Value.num 0.2),
            ("categories", Value.list [emptyCategory])]),
          ("content", Value.list [])])).classify c10client = .ok c' ∧
      c'._source = Value.dict [("body", Value.str "x")] ∧
      c'._sentiment.getItem "content"
        = (Value.dict [("overall", Value.dict [("score", Value.num 0.1),
            ("magnitude", Value.num 0.2),
            ("categories", Value.list [emptyCategory])]),
          ("content", Value.list [])]).getItem "content" ∧
      c'._sentiment.getItem "overall" = .ok (Value.dict os') ∧
      alGet os' "score" = alGet [("score", Value.num 0.1),
        ("magnitude", Value.num 0.2),
        ("categories", Value.list [emptyCategory])] "score" ∧
      alGet os' "magnitude" = alGet [("score", Value.num 0.1),
        ("magnitude", Value.num 0.2),
        ("categories", Value.list [emptyCategory])] "magnitude" ∧
      alGet os' "categories"
        = some (Value.list (classifyEntries c10client "x")) ∧
      c'.classify c10client = .ok c' :=
  c10_classify_frame _ c10client "x"
    [("overall", Value.dict [("score", Value.num 0.1),
        ("magnitude", Value.num 0.2),
        ("categories", Value.list [emptyCategory])]),
      ("content", Value.list [])]
    [("score", Value.num 0.1), ("magnitude", Value.num 0.2),
      ("categories", Value.list [emptyCategory])] rfl rfl rfl

end Hermes
